import Mathlib

/-!
Shallow embedding of the bevy_nested_tooltips library (src/src/lib.rs,
src/src/term.rs, src/src/text_observer.rs) for checking its
natural-language specification.

Entities are `Nat` identifiers.  Bevy's `Timer` is modelled with natural
time units.  Cursor coordinates (`RelativeCursorPosition.normalized`,
layout rectangles) are modelled with rationals; the only operations the
code performs on them are additions, componentwise multiplication and
inclusive interval comparisons, which rationals reproduce exactly.
Commands issued by a Bevy system are deferred and flushed in order at the
end of the system; the embedding applies them in the order they are
queued, which yields the flushed state.
-/

namespace NestedTooltips

/-- Bevy `Timer` in `TimerMode::Once`: `tick` advances `elapsed` by the
delta, clamped at `duration`; `is_finished` once `elapsed` reaches
`duration`. -/
structure BTimer where
  elapsed : Nat
  duration : Nat
deriving DecidableEq, Repr

def BTimer.tick (t : BTimer) (delta : Nat) : BTimer :=
  { t with elapsed := min (t.elapsed + delta) t.duration }

def BTimer.isFinished (t : BTimer) : Bool :=
  t.duration ≤ t.elapsed

/-- A live tooltip panel: the `Tooltip` entity together with the
components the library reads and writes on it.
`sourceLink` is `Tooltip.entity` (the link that spawned it), `parent`
is the target of `TooltipsNestedOf` when present, `locked` is the
presence of `TooltipLocked`, `debounced` the presence of
`ToolTipDebounced`, `waitTimer` the `TooltipWaitForHover` timer when the
component is present.  `cursorOver` and `normalized` mirror the
`RelativeCursorPosition` component maintained by the picking backend. -/
structure Panel where
  id : Nat
  sourceLink : Nat
  parent : Option Nat
  locked : Bool
  debounced : Bool
  waitTimer : Option BTimer
  cursorOver : Bool
  normalized : Option (Rat × Rat)
  zindex : Int
deriving DecidableEq, Repr

/-- `TooltipsContent` (lib.rs): one segment of a tooltip's body. -/
inductive TooltipsContent
  | string (s : String)
  | term (s : String)
  | highlight (s : String)
deriving DecidableEq, Repr

/-- `TooltipsData` (lib.rs): the value type of the `TooltipMap`. -/
structure TooltipsData where
  title : String
  content : List TooltipsContent
deriving DecidableEq, Repr

/-- `ActivationMethod` (lib.rs). -/
inductive ActivationMethod
  | middleMouse
  | hover (time : Nat)
deriving DecidableEq, Repr

/-- `TooltipConfiguration` (lib.rs). -/
structure TooltipConfiguration where
  activation_method : ActivationMethod
  interaction_wait_for_time : Nat
  starting_z_index : Int
deriving DecidableEq, Repr

/-- The world state the tooltip-lifecycle systems mutate: the list of
live `Tooltip` panels (in spawn order), a fresh-id counter for newly
spawned entities, and the log of emitted diagnostics. -/
structure TWorld where
  tooltips : List Panel
  nextId : Nat
  log : List String
deriving DecidableEq, Repr

def initWorld : TWorld := { tooltips := [], nextId := 0, log := [] }

/-- The link components an entity may carry, as read by
`links_query : Query<AnyOf<(&TooltipTermLink, &TooltipTermLinkRecursive)>>`:
an optional `TooltipTermLink` (its `linked_string`) paired with an
optional `TooltipTermLinkRecursive` (its `parent_entity` and
`linked_string`).  `none` means the entity does not match the query. -/
def LinkEnv : Type := Nat → Option (Option String × Option (Nat × String))

/-- The `TooltipMap` resource, as a lookup function. -/
def TMap : Type := String → Option TooltipsData

/-- The panel freshly inserted by `spawn_tooltip` (lib.rs 702-726):
spawner recorded in `Tooltip.entity`, a full `TooltipWaitForHover`
timer, a default `RelativeCursorPosition`, no lock, no debounce, and
`TooltipsNestedOf` exactly when the link was recursive. -/
def freshPanel (cfg : TooltipConfiguration) (id term : Nat)
    (nested : Option Nat) (z : Int) : Panel :=
  { id := id
    sourceLink := term
    parent := nested
    locked := false
    debounced := false
    waitTimer := some ⟨0, cfg.interaction_wait_for_time⟩
    cursorOver := false
    normalized := none
    zindex := z }

/-- Second half of `spawn_tooltip` (lib.rs 686-764), entered once the
link has been resolved to a content key and an optional parent panel.
For a root link every existing tooltip is despawned (lib.rs 689-691)
and the z-index is the configured base; for a nested link nothing is
despawned and the z-index adds the count of live tooltips.  Only then
is the key looked up in the map (lib.rs 699, `r!` bails with a
diagnostic on a miss — but the despawn commands are already queued). -/
def spawnResolved (cfg : TooltipConfiguration) (tmap : TMap)
    (term_entity : Nat) (key : String) (nested : Option Nat)
    (w : TWorld) : TWorld :=
  let st :=
    match nested with
    | none => ([], cfg.starting_z_index)
    | some _ => (w.tooltips, (w.tooltips.length : Int) + cfg.starting_z_index)
  match tmap key with
  | none =>
      { w with
        tooltips := st.1
        log := "tooltip map missing key" :: w.log }
  | some _ =>
      { tooltips := st.1 ++ [freshPanel cfg w.nextId term_entity nested st.2]
        nextId := w.nextId + 1
        log := w.log }

/-- `spawn_tooltip` (lib.rs 653-764).  First the idempotency guard: if a
live panel already records this entity as its spawner, return before
anything else (lib.rs 663-668).  Then resolve the link components
(lib.rs 670-684): a missing entity, a link with neither component, or a
link with both are diagnostics-and-return.  Otherwise proceed to
`spawnResolved`. -/
def spawn_tooltip (cfg : TooltipConfiguration) (links : LinkEnv)
    (tmap : TMap) (term_entity : Nat) (w : TWorld) : TWorld :=
  if w.tooltips.any (fun t => t.sourceLink == term_entity) then w
  else
    match links term_entity with
    | none => { w with log := "link query failed" :: w.log }
    | some (none, none) => { w with log := "Bevy invariant failed" :: w.log }
    | some (some _, some _) => { w with log := "Nested tooltips has a bug" :: w.log }
    | some (some s, none) => spawnResolved cfg tmap term_entity s none w
    | some (none, some (pe, s)) => spawnResolved cfg tmap term_entity s (some pe) w

/-- Despawning one tooltip entity.  `TooltipsNested`/`TooltipsNestedOf`
(lib.rs 310-318) are declared without `linked_spawn`, and a nested
tooltip is spawned at the top level (not as a scene child of its parent
panel), so `despawn`/`try_despawn` removes only this entity;
bevy_ecs relationship cleanup then removes the dangling
`TooltipsNestedOf` from any tooltip nested under it — the nested
tooltip itself stays alive. -/
def despawnPanel (ps : List Panel) (pid : Nat) : List Panel :=
  (ps.filter (fun p => p.id != pid)).map
    (fun p => if p.parent == some pid then { p with parent := none } else p)

/-- `Has<TooltipsNested>`: the relationship target component is present
on a panel exactly while some live tooltip is nested under it. -/
def hasNested (ps : List Panel) (pid : Nat) : Bool :=
  ps.any (fun q => q.parent == some pid)

/-- `TooltipLinkTimer` (lib.rs 322-325) attached to a link entity: the
per-link hover countdown. -/
structure LinkTimer where
  entity : Nat
  timer : BTimer
deriving DecidableEq, Repr

/-- Result of one run of the `tick_timers` system: the
`TooltipLinkTimeElapsed` triggers raised (their `term_entity`), the
surviving link timers, and the surviving tooltips. -/
structure TickResult where
  elapsedEvents : List Nat
  linkTimers : List LinkTimer
  tooltips : List Panel
deriving DecidableEq, Repr

/-- Ticking one panel's `TooltipWaitForHover` timer (lib.rs 527): the
timer, when present, advances by the frame delta; nothing else on the
panel is consulted or changed. -/
def tickPanel (delta : Nat) (p : Panel) : Panel :=
  match p.waitTimer with
  | none => p
  | some t => { p with waitTimer := some (t.tick delta) }

/-- `tick_timers` (lib.rs 511-532).  Every `TooltipLinkTimer` is ticked;
a finished one triggers `TooltipLinkTimeElapsed` for its entity and is
removed (lib.rs 517-525).  Every `TooltipWaitForHover` is ticked and a
finished one despawns its tooltip via `try_despawn` (lib.rs 526-531).
The queries filter on component presence only: neither loop looks at
the activation method, the cursor, `TooltipLocked` or `TooltipsNested`. -/
def tick_timers (delta : Nat) (lts : List LinkTimer) (ps : List Panel) :
    TickResult :=
  let ticked := lts.map (fun lt => { lt with timer := lt.timer.tick delta })
  let fired := (ticked.filter (fun lt => lt.timer.isFinished)).map (·.entity)
  let kept := ticked.filter (fun lt => !lt.timer.isFinished)
  let tickedTips := ps.map (tickPanel delta)
  let finishedIds :=
    (tickedTips.filter (fun p =>
      match p.waitTimer with
      | some t => t.isFinished
      | none => false)).map (·.id)
  { elapsedEvents := fired
    linkTimers := kept
    tooltips := finishedIds.foldl despawnPanel tickedTips }

/-- An axis-aligned rectangle over rationals; `contains` mirrors bevy
`Rect::contains` (inclusive on both bounds). -/
structure QRect where
  minX : Rat
  minY : Rat
  maxX : Rat
  maxY : Rat
deriving DecidableEq, Repr

def QRect.contains (r : QRect) (p : Rat × Rat) : Bool :=
  r.minX ≤ p.1 && r.minY ≤ p.2 && p.1 ≤ r.maxX && p.2 ≤ r.maxY

/-- `DEBOUNCE_DIST` (lib.rs 575). -/
def DEBOUNCE_DIST : Rat := 48 / 100

/-- `hover_debounce` (lib.rs 568-591), the `Pointer<Move>` observer on a
tooltip: if the panel is already debounced, return; if
`RelativeCursorPosition.normalized` is absent, return; if the
normalized position lies in the square `[-0.48, 0.48]²`, insert
`ToolTipDebounced` and remove `TooltipWaitForHover`. -/
def hover_debounce (p : Panel) : Panel :=
  if p.debounced then p
  else
    match p.normalized with
    | none => p
    | some n =>
      if (QRect.mk (-DEBOUNCE_DIST) (-DEBOUNCE_DIST)
            DEBOUNCE_DIST DEBOUNCE_DIST).contains n
      then { p with debounced := true, waitTimer := none }
      else p

/-- `hover_despawn` (lib.rs 603-619), the `Pointer<Out>` observer on a
tooltip: return if the panel has a nested tooltip, is locked, or is not
yet debounced; return if the cursor is still over the panel; otherwise
despawn the panel. -/
def hover_despawn (ps : List Panel) (pid : Nat) : List Panel :=
  match ps.find? (fun p => p.id == pid) with
  | none => ps
  | some p =>
    if hasNested ps pid || p.locked || !p.debounced then ps
    else if p.cursorOver then ps
    else despawnPanel ps pid

/-- `PointerButton` (bevy_picking). -/
inductive PButton
  | primary
  | secondary
  | middle
deriving DecidableEq, Repr

/-- `toggle_lock` (lib.rs 809-822), the `Pointer<Press>` observer on a
tooltip: on a middle-button press, toggle the `TooltipLocked`
component on the pressed panel. -/
def toggle_lock (ps : List Panel) (pid : Nat) (b : PButton) : List Panel :=
  if b == PButton.middle then
    ps.map (fun p => if p.id == pid then { p with locked := !p.locked } else p)
  else ps

/-- A `Pointer<Press>` event as delivered to a link observer. -/
structure PressEvent where
  entity : Nat
  button : PButton
deriving DecidableEq, Repr

/-- `middle_mouse_spawn` (lib.rs 623-648), the `Pointer<Press>` observer
installed on link entities under the `MiddleMouse` activation method.
The first statement is `press.propagate(false)` — before the button is
examined — so the returned propagate flag is `false` on every path;
only a middle-button press then reaches `spawn_tooltip`.  The result is
the event's propagate flag paired with the world after the handler. -/
def middle_mouse_spawn (cfg : TooltipConfiguration) (links : LinkEnv)
    (tmap : TMap) (press : PressEvent) (w : TWorld) : Bool × TWorld :=
  let propagateFlag := false
  if press.button != PButton.middle then (propagateFlag, w)
  else (propagateFlag, spawn_tooltip cfg links tmap press.entity w)

/-- The observer entities the plugin manages, by their marker component
(`NestedTooltipsHoverObserver` / `NestedTooltipsMiddleMouseObserver`),
together with the in-flight per-link countdowns. -/
structure ObserverWorld where
  hoverObs : Nat
  middleObs : Nat
  linkTimers : List LinkTimer
deriving DecidableEq, Repr

/-- `update_settings` (lib.rs 455-480), run when `TooltipConfiguration`
changes: under `MiddleMouse` it spawns one new observer (watching every
link) tagged `NestedTooltipsMiddleMouseObserver`; under `Hover` it
spawns two new observers tagged `NestedTooltipsHoverObserver`.  No
observer is despawned and no `TooltipLinkTimer` is removed — the
system issues no despawn or removal commands at all. -/
def update_settings (cfg : TooltipConfiguration) (ow : ObserverWorld) :
    ObserverWorld :=
  match cfg.activation_method with
  | .middleMouse => { ow with middleObs := ow.middleObs + 1 }
  | .hover _ => { ow with hoverObs := ow.hoverObs + 2 }

/-- One candidate container as matched by the query of `tooltip_links`
(text_observer.rs 134-146): an entity with `TextLayoutInfo`,
`ComputedNode` and `RelativeCursorPosition`, without `TooltipsNested`,
carrying one of the link/listen markers.  `sections` is
`TextLayoutInfo.section_rects`: pairs of span entity and rectangle in
the node's coordinate space. -/
structure HContainer where
  entity : Nat
  norm : Option (Rat × Rat)
  cursorOver : Bool
  sizeX : Rat
  sizeY : Rat
  sections : List (Nat × QRect)
deriving DecidableEq, Repr

/-- The `WasHoveringText` resource (text_observer.rs 37-45). -/
structure WasHoveringText where
  entity : Nat
  relativeCursorEntity : Nat
deriving DecidableEq, Repr

/-- The `TextHoveredOver` / `TextHoveredOut` triggers raised by
`tooltip_links`. -/
inductive TextHoverEvent
  | over (e : Nat)
  | out (e : Nat)
deriving DecidableEq, Repr

/-- `ui_node.size() / 2. + norm * ui_node.size()`
(text_observer.rs 163, 195). -/
def adjustedPos (c : HContainer) (n : Rat × Rat) : Rat × Rat :=
  (c.sizeX / 2 + n.1 * c.sizeX, c.sizeY / 2 + n.2 * c.sizeY)

/-- `section_rects.iter().find(|rect| rect.1.contains(adjusted))`. -/
def findSection (c : HContainer) (n : Rat × Rat) : Option (Nat × QRect) :=
  c.sections.find? (fun r => r.2.contains (adjustedPos c n))

/-- The search loop of `tooltip_links` (text_observer.rs 187-216): the
first container whose cursor is over it, has a normalized position, and
whose sections contain the adjusted position raises `TextHoveredOver`
for the found span and overwrites the `WasHoveringText` resource; if
none matches, whatever resource state was passed in is left as is. -/
def searchLoop (cs : List HContainer) (was : Option WasHoveringText) :
    List TextHoverEvent × Option WasHoveringText :=
  match cs with
  | [] => ([], was)
  | c :: rest =>
    match c.norm with
    | some n =>
      if c.cursorOver then
        match findSection c n with
        | some (e, _) => ([TextHoverEvent.over e], some ⟨e, c.entity⟩)
        | none => searchLoop rest was
      else searchLoop rest was
    | none => searchLoop rest was

/-- `tooltip_links` (text_observer.rs 131-216), one run of the per-tick
hit-test system.  With a tracked span: if its container no longer
matches the query, remove the resource and return (no event, no
search); with a normalized position, find the section under the
pointer — on the tracked span return unchanged, on a different span
raise `TextHoveredOut` for the tracked span, clear, and return (the
enter for the new span is left to a later tick); when no section
contains the pointer, fall through to the search with the resource
still set; with no normalized position raise `TextHoveredOut` and
clear.  The result is the list of raised events and the resource
afterwards. -/
def tooltip_links (cs : List HContainer) (was : Option WasHoveringText) :
    List TextHoverEvent × Option WasHoveringText :=
  match was with
  | none => searchLoop cs none
  | some h =>
    match cs.find? (fun c => c.entity == h.relativeCursorEntity) with
    | none => ([], none)
    | some c =>
      match c.norm with
      | none => ([TextHoverEvent.out h.entity], none)
      | some n =>
        match findSection c n with
        | some (e, _) =>
          if e != h.entity then ([TextHoverEvent.out h.entity], none)
          else ([], was)
        | none => searchLoop cs was

/-- One event the tooltip-lifecycle state machine consumes: an
activation signal for a link (a `TooltipLinkTimeElapsed` trigger or a
middle press reaching `spawn_tooltip`), a frame of the `tick_timers`
system, a picking-backend update of a panel's
`RelativeCursorPosition`, a `Pointer<Move>` over a panel
(`hover_debounce`), a `Pointer<Out>` on a panel (`hover_despawn`), or
a `Pointer<Press>` on a panel (`toggle_lock`). -/
inductive TStep
  | activate (link : Nat)
  | tick (delta : Nat)
  | pointerUpdate (pid : Nat) (over : Bool) (norm : Option (Rat × Rat))
  | moveOn (pid : Nat)
  | outOf (pid : Nat)
  | pressOn (pid : Nat) (b : PButton)

/-- Applying one `TStep` to the world, each case by the corresponding
system or observer of the source. -/
def stepWorld (cfg : TooltipConfiguration) (links : LinkEnv) (tmap : TMap)
    (w : TWorld) : TStep → TWorld
  | .activate link => spawn_tooltip cfg links tmap link w
  | .tick d => { w with tooltips := (tick_timers d [] w.tooltips).tooltips }
  | .pointerUpdate pid over norm =>
      { w with
        tooltips := w.tooltips.map (fun p =>
          if p.id == pid then { p with cursorOver := over, normalized := norm }
          else p) }
  | .moveOn pid =>
      { w with
        tooltips := w.tooltips.map (fun p =>
          if p.id == pid then hover_debounce p else p) }
  | .outOf pid => { w with tooltips := hover_despawn w.tooltips pid }
  | .pressOn pid b => { w with tooltips := toggle_lock w.tooltips pid b }

/-- Running a sequence of events from a starting world. -/
def runSteps (cfg : TooltipConfiguration) (links : LinkEnv) (tmap : TMap)
    (w : TWorld) (steps : List TStep) : TWorld :=
  steps.foldl (stepWorld cfg links tmap) w

/-- No two live panels record the same spawning link. -/
def distinctSources (ps : List Panel) : Prop :=
  ps.Pairwise (fun a b => a.sourceLink ≠ b.sourceLink)

/-- The square `[-DEBOUNCE_DIST, DEBOUNCE_DIST]²` tested by
`hover_debounce`. -/
def inDebounceSquare (n : Rat × Rat) : Bool :=
  (QRect.mk (-DEBOUNCE_DIST) (-DEBOUNCE_DIST)
    DEBOUNCE_DIST DEBOUNCE_DIST).contains n

/-- A pointer trajectory that stays on the panel: each step is a
`Pointer<Move>` delivered to the panel (picking has set `cursor_over`
and a fresh `normalized`), or a `Pointer<Out>` that bubbles to the
panel from an inner boundary crossing while the cursor is still over
the panel (`cursor_over` stays `true`). -/
inductive BorderMotion
  | move (norm : Option (Rat × Rat))
  | crossOut (norm : Option (Rat × Rat))

/-- Applying one on-panel pointer step to the world: the picking
backend updates the panel's `RelativeCursorPosition` (with
`cursor_over = true`, the pointer being on the panel), then the
corresponding observer runs. -/
def applyMotion (pid : Nat) (ps : List Panel) : BorderMotion → List Panel
  | .move n =>
      (ps.map (fun p =>
        if p.id == pid then { p with cursorOver := true, normalized := n }
        else p)).map (fun p => if p.id == pid then hover_debounce p else p)
  | .crossOut n =>
      hover_despawn
        (ps.map (fun p =>
          if p.id == pid then { p with cursorOver := true, normalized := n }
          else p)) pid

def applyMotions (pid : Nat) (ps : List Panel) (ms : List BorderMotion) :
    List Panel :=
  ms.foldl (applyMotion pid) ps

/-! Concrete fixtures used by counterexamples and witnesses. -/

def cfgEx : TooltipConfiguration := ⟨.hover 9, 5, 3⟩

def cfgMidEx : TooltipConfiguration := ⟨.middleMouse, 5, 3⟩

/-- Links: entities 1, 2 and 7 carry root `TooltipTermLink`s (keys
`"a"`, `"m"`, `"a"`), entity 3 a `TooltipTermLinkRecursive` under
panel 0 with key `"a"`. -/
def linksEx : LinkEnv := fun e =>
  if e == 1 then some (some "a", none)
  else if e == 2 then some (some "m", none)
  else if e == 3 then some (none, some (0, "a"))
  else if e == 4 then some (none, some (0, "m"))
  else if e == 7 then some (some "a", none)
  else none

/-- Content map holding only the key `"a"`. -/
def tmapEx : TMap := fun k =>
  if k == "a" then some ⟨"T", [TooltipsContent.string "x"]⟩ else none

def rootPanelEx : Panel := freshPanel cfgEx 0 1 none 3

def w1Ex : TWorld := { tooltips := [rootPanelEx], nextId := 1, log := [] }

/-- A panel the pointer is resting on (`cursor_over = true`), not yet
debounced, dismiss timer at 0 of 5. -/
def hoveredEx : Panel := { rootPanelEx with cursorOver := true }

/-- A locked panel whose dismiss timer is still present (locked before
ever debouncing). -/
def lockedEx : Panel := { rootPanelEx with locked := true }

def parEx : Panel := freshPanel cfgEx 0 1 none 3

/-- A panel nested under `parEx` (its `TooltipsNestedOf` points at
panel 0), already debounced so its own dismiss timer is gone. -/
def chiEx : Panel :=
  { freshPanel cfgEx 1 7 (some 0) 4 with debounced := true, waitTimer := none }

/-- Tracked container 1: pointer at its centre, but its only section
rectangle (span 10) is the square `[0,10]²`, far from the adjusted
position `(50,50)`. -/
def c1Ex : HContainer := ⟨1, some (0, 0), true, 100, 100, [(10, ⟨0, 0, 10, 10⟩)]⟩

/-- Container 2: pointer at its centre, its section rectangle (span
20) is `[40,60]²`, containing the adjusted position `(50,50)`. -/
def c2Ex : HContainer := ⟨2, some (0, 0), true, 100, 100, [(20, ⟨40, 40, 60, 60⟩)]⟩

/-- Two hover observers installed, none for middle mouse, and entity 7
mid-countdown (elapsed 0 of 4). -/
def owEx : ObserverWorld := ⟨2, 0, [⟨7, ⟨0, 4⟩⟩]⟩

/-- Container 3: the pointer has left it entirely, so its
`RelativeCursorPosition.normalized` is absent. -/
def c3Ex : HContainer := ⟨3, none, false, 100, 100, []⟩

/-- A panel the pointer has just moved well inside of: `cursor_over`
set, normalized position at the centre. -/
def midEx : Panel := { rootPanelEx with cursorOver := true, normalized := some (0, 0) }

/-- A world whose only live panel was spawned by link 7. -/
def wC2Ex : TWorld := { tooltips := [freshPanel cfgEx 0 7 none 3], nextId := 1, log := [] }

/-- A debounced panel: the debounce marked, the dismiss timer gone. -/
def debEx : Panel :=
  { rootPanelEx with debounced := true, waitTimer := none, cursorOver := true }

/-- C2: root exclusivity.  Whenever a root-level link (a
`TooltipTermLink` with no parent reference) is activated and its spawn
succeeds (no live panel bears this link, the key resolves), every
previously live panel is despawned first and the result holds exactly
one panel: the new root panel (parent `none`, source this link); in
particular it is the only root-level panel. -/
theorem tooltip_C2_root_exclusivity (cfg : TooltipConfiguration)
    (links : LinkEnv) (tmap : TMap) (link : Nat) (key : String)
    (d : TooltipsData) (w : TWorld)
    (hlink : links link = some (some key, none))
    (hkey : tmap key = some d)
    (hfree : w.tooltips.any (fun t => t.sourceLink == link) = false) :
    (spawn_tooltip cfg links tmap link w).tooltips =
      [freshPanel cfg w.nextId link none cfg.starting_z_index] ∧
    ((spawn_tooltip cfg links tmap link w).tooltips.filter
        (fun p => p.parent == none)) =
      [freshPanel cfg w.nextId link none cfg.starting_z_index] ∧
    (freshPanel cfg w.nextId link none cfg.starting_z_index).sourceLink
      = link ∧
    (freshPanel cfg w.nextId link none cfg.starting_z_index).parent
      = none := by
  refine ⟨?_, ?_, rfl, rfl⟩ <;>
    simp [spawn_tooltip, hfree, hlink, spawnResolved, hkey, freshPanel]

/-- Witness for C2: activating root link 1 (key `"a"`) while the panel
of link 7 is live leaves exactly the new root panel. -/
theorem tooltip_C2_witness :
    (spawn_tooltip cfgEx linksEx tmapEx 1 wC2Ex).tooltips =
      [freshPanel cfgEx 1 1 none 3] :=
  (tooltip_C2_root_exclusivity cfgEx linksEx tmapEx 1 "a"
    ⟨"T", [TooltipsContent.string "x"]⟩ wC2Ex (by decide) (by decide)
    (by decide)).1

/-- C3 counterexample: destroying panel 0, which has one live
descendant (`chiEx`, nested under it), destroys exactly one panel, not
`N + 1 = 2`: the nested panel survives with its parent reference
cleared — an orphaned nested panel is live, contrary to the claim. -/
theorem tooltip_C3_counterexample :
    hasNested [parEx, chiEx] 0 = true ∧
    despawnPanel [parEx, chiEx] 0 = [{ chiEx with parent := none }] ∧
    (despawnPanel [parEx, chiEx] 0).length = 1 := by
  refine ⟨rfl, rfl, rfl⟩

/-- C3 amended: destruction does not cascade.  Destroying a panel
removes only panels bearing that id; every other panel survives, a
panel nested under the destroyed one surviving as an orphan with its
parent reference cleared.  The hover-exit rule never despawns a panel
that still has a live nested panel, but dismiss-timer expiry can
despawn such a parent (here panel 0, with its nested, debounced panel
1 left live and orphaned). -/
theorem tooltip_C3_no_cascade (ps : List Panel) (pid : Nat) (p : Panel) :
    (hasNested ps pid = true → hover_despawn ps pid = ps) ∧
    (p ∈ ps → p.id ≠ pid → p.parent ≠ some pid → p ∈ despawnPanel ps pid) ∧
    (p ∈ ps → p.id ≠ pid → p.parent = some pid →
      { p with parent := none } ∈ despawnPanel ps pid) ∧
    (tick_timers 5 [] [parEx, chiEx]).tooltips =
      [{ chiEx with parent := none }] := by
  refine ⟨?_, ?_, ?_, rfl⟩
  · intro h
    unfold hover_despawn
    cases hfind : ps.find? (fun q => q.id == pid) with
    | none => rfl
    | some q => simp [h]
  · intro hmem hid hpar
    unfold despawnPanel
    have h1 : p ∈ ps.filter (fun q => q.id != pid) := by
      simp [List.mem_filter, hmem, hid]
    refine List.mem_map.mpr ⟨p, h1, ?_⟩
    simp [hpar]
  · intro hmem hid hpar
    unfold despawnPanel
    have h1 : p ∈ ps.filter (fun q => q.id != pid) := by
      simp [List.mem_filter, hmem, hid]
    refine List.mem_map.mpr ⟨p, h1, ?_⟩
    simp [hpar]

/-- Witness for C3's amended claim at the two-panel fixture. -/
theorem tooltip_C3_witness :
    hover_despawn [parEx, chiEx] 0 = [parEx, chiEx] ∧
    { chiEx with parent := none } ∈ despawnPanel [parEx, chiEx] 0 :=
  ⟨(tooltip_C3_no_cascade [parEx, chiEx] 0 chiEx).1 (by decide),
   (tooltip_C3_no_cascade [parEx, chiEx] 0 chiEx).2.2.1 (by decide)
     (by decide) (by decide)⟩

/-- C4 counterexample: `hoveredEx` has the pointer resting on it
(`cursor_over = true`), yet a `tick_timers` frame of 3 advances its
dismiss timer from 0 to 3 of 5 (neither paused nor reset to full
duration), and a frame of 5 reaches expiry and despawns the
continuously hovered panel — contrary to the claim. -/
theorem tooltip_C4_counterexample :
    hoveredEx.cursorOver = true ∧
    (tick_timers 3 [] [hoveredEx]).tooltips =
      [{ hoveredEx with waitTimer := some ⟨3, 5⟩ }] ∧
    (tick_timers 5 [] [hoveredEx]).tooltips = [] := by
  refine ⟨rfl, rfl, rfl⟩

/-- C4 amended: the dismiss timer advances on every tick by the frame
delta, independent of the cursor (flipping `cursor_over` changes
nothing), and is never reset; instead, a pointer-move sufficiently
inside an undebounced panel removes the timer permanently
(`hover_debounce`), and a panel without the timer is untouched by
`tick_timers`, so only a debounced panel never reaches expiry. -/
theorem tooltip_C4_timer_unconditional (d : Nat) (p : Panel)
    (n : Rat × Rat) :
    ((tickPanel d p).waitTimer = p.waitTimer.map (fun t => t.tick d)) ∧
    ((tickPanel d { p with cursorOver := true }).waitTimer =
      (tickPanel d { p with cursorOver := false }).waitTimer) ∧
    (p.debounced = false → p.normalized = some n →
      inDebounceSquare n = true →
      hover_debounce p = { p with debounced := true, waitTimer := none }) ∧
    (p.waitTimer = none → (tick_timers d [] [p]).tooltips = [p]) := by
  refine ⟨?_, ?_, ?_, ?_⟩
  · cases h : p.waitTimer <;> simp [tickPanel, h]
  · cases h : p.waitTimer <;> simp [tickPanel, h]
  · intro h1 h2 h3
    unfold inDebounceSquare at h3
    simp [hover_debounce, h1, h2, h3]
  · intro h
    simp [tick_timers, tickPanel, h]

/-- Witness for C4's amended claim: the centre move debounces `midEx`
and removes its timer, after which a tick leaves it untouched. -/
theorem tooltip_C4_witness :
    hover_debounce midEx = { midEx with debounced := true, waitTimer := none } ∧
    (tick_timers 3 [] [{ midEx with waitTimer := none }]).tooltips =
      [{ midEx with waitTimer := none }] :=
  ⟨(tooltip_C4_timer_unconditional 3 midEx (0, 0)).2.2.1 rfl rfl
     (by with_unfolding_all rfl),
   (tooltip_C4_timer_unconditional 3 { midEx with waitTimer := none }
     (0, 0)).2.2.2 rfl⟩

/-- C5: the code contradicts the claim (and the `TooltipLocked` doc in
events.rs, "will not be despawned by timeout"): `tick_timers` queries
`TooltipWaitForHover` without excluding `TooltipLocked`, so a panel
locked before it ever debounced (timer still present) is despawned at
dismiss-timer expiry. -/
theorem tooltip_C5_locked_panel_despawned_by_timer :
    lockedEx.locked = true ∧ lockedEx.waitTimer = some ⟨0, 5⟩ ∧
    (tick_timers 5 [] [lockedEx]).tooltips = [] := by
  refine ⟨rfl, rfl, rfl⟩

/-- C6 counterexample: activating root link 2, whose key `"m"` is
absent from the content map, while panel `rootPanelEx` is live: no
panel is created and a diagnostic is logged, but the live-panel set is
not left unchanged — the pre-existing root panel was already despawned
before the failed lookup, contrary to the claim. -/
theorem tooltip_C6_counterexample :
    w1Ex.tooltips = [rootPanelEx] ∧
    (spawn_tooltip cfgEx linksEx tmapEx 2 w1Ex).tooltips = [] ∧
    (spawn_tooltip cfgEx linksEx tmapEx 2 w1Ex).nextId = w1Ex.nextId ∧
    (spawn_tooltip cfgEx linksEx tmapEx 2 w1Ex).log =
      "tooltip map missing key" :: w1Ex.log := by
  refine ⟨rfl, by decide, by decide, by decide⟩

/-- C6 amended: an activation whose key is absent from the content map
creates no panel and logs a diagnostic; for a nested link the live
panels are left unchanged, but for a root-level link every previously
live panel has already been despawned when the lookup fails. -/
theorem tooltip_C6_missing_content (cfg : TooltipConfiguration)
    (links : LinkEnv) (tmap : TMap) (link : Nat) (key : String)
    (pe : Nat) (w : TWorld)
    (hfree : w.tooltips.any (fun t => t.sourceLink == link) = false)
    (hmiss : tmap key = none) :
    ((links link = some (none, some (pe, key))) →
      (spawn_tooltip cfg links tmap link w).tooltips = w.tooltips ∧
      (spawn_tooltip cfg links tmap link w).nextId = w.nextId ∧
      (spawn_tooltip cfg links tmap link w).log =
        "tooltip map missing key" :: w.log) ∧
    ((links link = some (some key, none)) →
      (spawn_tooltip cfg links tmap link w).tooltips = [] ∧
      (spawn_tooltip cfg links tmap link w).nextId = w.nextId ∧
      (spawn_tooltip cfg links tmap link w).log =
        "tooltip map missing key" :: w.log) := by
  constructor <;> intro hl <;>
    simp [spawn_tooltip, hfree, hl, spawnResolved, hmiss]

/-- Witness for C6's amended claim: nested link 4 with missing key
`"m"` leaves the live panels of `w1Ex` unchanged. -/
theorem tooltip_C6_witness :
    (spawn_tooltip cfgEx linksEx tmapEx 4 w1Ex).tooltips = w1Ex.tooltips ∧
    (spawn_tooltip cfgEx linksEx tmapEx 4 w1Ex).nextId = w1Ex.nextId ∧
    (spawn_tooltip cfgEx linksEx tmapEx 4 w1Ex).log =
      "tooltip map missing key" :: w1Ex.log :=
  (tooltip_C6_missing_content cfgEx linksEx tmapEx 4 "m" 0 w1Ex
    (by decide) (by decide)).1 (by decide)

/-- Once a panel is debounced, one on-panel pointer step leaves it the
single live panel, still debounced, its dismiss timer unchanged. -/
theorem applyMotion_debounced (p : Panel) (hdeb : p.debounced = true)
    (m : BorderMotion) :
    ∃ q, applyMotion p.id [p] m = [q] ∧ q.debounced = true ∧
      q.waitTimer = p.waitTimer ∧ q.id = p.id := by
  cases m with
  | move n =>
    refine ⟨{ p with cursorOver := true, normalized := n }, ?_, hdeb, rfl, rfl⟩
    simp [applyMotion, hover_debounce, hdeb]
  | crossOut n =>
    refine ⟨{ p with cursorOver := true, normalized := n }, ?_, hdeb, rfl, rfl⟩
    have hfind : [({ p with cursorOver := true, normalized := n } : Panel)].find?
        (fun q => q.id == p.id) =
        some { p with cursorOver := true, normalized := n } := by
      simp
    by_cases h1 : (hasNested [({ p with cursorOver := true, normalized := n } : Panel)] p.id
        || p.locked || !p.debounced) = true
    · simp [applyMotion, hover_despawn, hfind, h1]
    · simp [applyMotion, hover_despawn, hfind, h1]

theorem applyMotions_debounced (p : Panel) (hdeb : p.debounced = true)
    (ms : List BorderMotion) :
    ∃ q, applyMotions p.id [p] ms = [q] ∧ q.debounced = true ∧
      q.waitTimer = p.waitTimer ∧ q.id = p.id := by
  induction ms generalizing p with
  | nil => exact ⟨p, rfl, hdeb, rfl, rfl⟩
  | cons m rest ih =>
    obtain ⟨q, hq, hqdeb, hqt, hqid⟩ := applyMotion_debounced p hdeb m
    obtain ⟨r, hr, hrdeb, hrt, hrid⟩ := ih q hqdeb
    refine ⟨r, ?_, hrdeb, by rw [hrt, hqt], by rw [hrid, hqid]⟩
    unfold applyMotions at hr ⊢
    rw [List.foldl_cons, hq, ← hqid]
    exact hr

/-- C7: debounce.  A pointer-move on an undebounced panel whose
normalized cursor position lies within `±0.48` of centre on both axes
marks it debounced and removes its dismiss timer; a debounced panel
survives any sequence of on-panel pointer steps (moves anywhere, and
boundary crossings that bubble a `Pointer<Out>` while the cursor stays
over the panel) with the debounce flag kept and no timer re-added; and
before debounce, a `Pointer<Out>` never despawns the panel. -/
theorem tooltip_C7_debounce_idempotent (p : Panel) (n : Rat × Rat)
    (ms : List BorderMotion) (ps : List Panel) (pid : Nat) (p2 : Panel) :
    (p.debounced = false → p.normalized = some n →
      inDebounceSquare n = true →
      hover_debounce p = { p with debounced := true, waitTimer := none }) ∧
    (p.debounced = true →
      ∃ q, applyMotions p.id [p] ms = [q] ∧ q.debounced = true ∧
        q.waitTimer = p.waitTimer ∧ q.id = p.id) ∧
    (ps.find? (fun q => q.id == pid) = some p2 → p2.debounced = false →
      hover_despawn ps pid = ps) := by
  refine ⟨?_, ?_, ?_⟩
  · intro h1 h2 h3
    unfold inDebounceSquare at h3
    simp [hover_debounce, h1, h2, h3]
  · intro hdeb
    exact applyMotions_debounced p hdeb ms
  · intro hfind hdeb
    simp [hover_despawn, hfind, hdeb]

/-- Witness for C7: the centre move debounces `midEx`; the debounced
panel `debEx` survives a border move and a bubbled `Pointer<Out>`; the
undebounced `rootPanelEx` is not despawned by a `Pointer<Out>`. -/
theorem tooltip_C7_witness :
    hover_debounce midEx = { midEx with debounced := true, waitTimer := none } ∧
    (∃ q, applyMotions debEx.id [debEx]
        [BorderMotion.move (some (49/100, 0)),
         BorderMotion.crossOut (some (49/100, 0))] = [q] ∧
      q.debounced = true ∧ q.waitTimer = debEx.waitTimer ∧ q.id = debEx.id) ∧
    hover_despawn [rootPanelEx] 0 = [rootPanelEx] :=
  ⟨(tooltip_C7_debounce_idempotent midEx (0, 0) [] [] 0 rootPanelEx).1
     rfl rfl (by with_unfolding_all rfl),
   (tooltip_C7_debounce_idempotent debEx (0, 0)
     [BorderMotion.move (some (49/100, 0)),
      BorderMotion.crossOut (some (49/100, 0))] [] 0 rootPanelEx).2.1 rfl,
   (tooltip_C7_debounce_idempotent rootPanelEx (0, 0) [] [rootPanelEx] 0
     rootPanelEx).2.2 (by decide) rfl⟩

/-- C8: the code contradicts its own doc comment ("this will despawn
unused observers"): switching the configuration to `MiddleMouse` while
two hover observers are installed and link 7 is mid-countdown leaves
both hover observers installed and the countdown in place; the
countdown then fires `TooltipLinkTimeElapsed`, and `spawn_time_done`
turns it into a spawn even under the `MiddleMouse` method — a residual
timer artifact, contrary to the claim. -/
theorem tooltip_C8_stale_observers_and_timer :
    update_settings cfgMidEx owEx =
      { hoverObs := 2, middleObs := 1, linkTimers := [⟨7, ⟨0, 4⟩⟩] } ∧
    (tick_timers 4 (update_settings cfgMidEx owEx).linkTimers []).elapsedEvents
      = [7] ∧
    (spawn_tooltip cfgMidEx linksEx tmapEx 7 initWorld).tooltips =
      [freshPanel cfgMidEx 0 7 none 3] := by
  refine ⟨rfl, rfl, by decide⟩

/-- C9 counterexample: with span 10 of container 1 tracked, the pointer
sits on none of container 1's section rectangles (the tracked span is
lost), yet `tooltip_links` raises no hover-exit for span 10: it falls
through to the search, raises a hover-enter for span 20 of container 2
and overwrites the hover state — contrary to the claim that every loss
of the tracked span produces exactly one hover-exit. -/
theorem tooltip_C9_counterexample :
    findSection c1Ex (0, 0) = none ∧
    tooltip_links [c1Ex, c2Ex] (some ⟨10, 1⟩) =
      ([TextHoverEvent.over 20], some ⟨20, 2⟩) ∧
    decide (TextHoverEvent.out 10 ∈
      (tooltip_links [c1Ex, c2Ex] (some ⟨10, 1⟩)).1) = false := by
  refine ⟨by with_unfolding_all rfl, by with_unfolding_all rfl,
    by with_unfolding_all rfl⟩

/-- The search loop raises no `TextHoveredOut` and at most one event. -/
theorem searchLoop_events (cs : List HContainer) (was : Option WasHoveringText) :
    (∀ e, TextHoverEvent.out e ∉ (searchLoop cs was).1) ∧
    (searchLoop cs was).1.length ≤ 1 := by
  induction cs with
  | nil => simp [searchLoop]
  | cons c rest ih =>
    cases hn : c.norm with
    | none => simpa [searchLoop, hn] using ih
    | some n =>
      by_cases hov : c.cursorOver = true
      · cases hf : findSection c n with
        | none => simpa [searchLoop, hn, hov, hf] using ih
        | some r =>
          constructor
          · intro e
            simp [searchLoop, hn, hov, hf]
          · simp [searchLoop, hn, hov, hf]
      · simpa [searchLoop, hn, hov] using ih

/-- C9 amended: the per-tick hit-test.  While the pointer stays on the
tracked span, the tick is a no-op.  When the tracked container still
matches the query, an exit for the tracked span (and nothing else) is
raised exactly when the pointer is over the container on a different
span — in which case the tick stops without raising the matching
enter — or has no normalized position.  When the tracked container no
longer matches, the state is cleared with no exit.  When the pointer
is over the tracked container but on none of its spans, the tracked
state is retained and the candidate search runs, possibly overwriting
it with an enter and never an exit.  In all cases every exit raised
names the previously tracked span and at most one event is raised per
tick. -/
theorem tooltip_C9_hit_test (cs : List HContainer) (h : WasHoveringText)
    (c : HContainer) (n : Rat × Rat) (r : QRect) (e : Nat)
    (was : Option WasHoveringText) :
    (cs.find? (fun x => x.entity == h.relativeCursorEntity) = some c →
      c.norm = some n → findSection c n = some (h.entity, r) →
      tooltip_links cs (some h) = ([], some h)) ∧
    (cs.find? (fun x => x.entity == h.relativeCursorEntity) = some c →
      c.norm = some n → findSection c n = some (e, r) → e ≠ h.entity →
      tooltip_links cs (some h) = ([TextHoverEvent.out h.entity], none)) ∧
    (cs.find? (fun x => x.entity == h.relativeCursorEntity) = some c →
      c.norm = none →
      tooltip_links cs (some h) = ([TextHoverEvent.out h.entity], none)) ∧
    (cs.find? (fun x => x.entity == h.relativeCursorEntity) = some c →
      c.norm = some n → findSection c n = none →
      tooltip_links cs (some h) = searchLoop cs (some h)) ∧
    (cs.find? (fun x => x.entity == h.relativeCursorEntity) = none →
      tooltip_links cs (some h) = ([], none)) ∧
    (TextHoverEvent.out e ∈ (tooltip_links cs was).1 →
      ∃ h2, was = some h2 ∧ h2.entity = e) ∧
    (tooltip_links cs was).1.length ≤ 1 := by
  refine ⟨?_, ?_, ?_, ?_, ?_, ?_, ?_⟩
  · intro hfind hn hfs
    simp [tooltip_links, hfind, hn, hfs]
  · intro hfind hn hfs hne
    simp [tooltip_links, hfind, hn, hfs, hne]
  · intro hfind hn
    simp [tooltip_links, hfind, hn]
  · intro hfind hn hfs
    simp [tooltip_links, hfind, hn, hfs]
  · intro hfind
    simp [tooltip_links, hfind]
  · cases was with
    | none =>
      intro hmem
      rw [show tooltip_links cs none = searchLoop cs none from rfl] at hmem
      exact absurd hmem ((searchLoop_events cs none).1 e)
    | some h2 =>
      cases hfind : cs.find? (fun x => x.entity == h2.relativeCursorEntity) with
      | none =>
        intro hmem
        simp [tooltip_links, hfind] at hmem
      | some c2 =>
        cases hn2 : c2.norm with
        | none =>
          intro hmem
          simp [tooltip_links, hfind, hn2] at hmem
          exact ⟨h2, rfl, hmem.symm⟩
        | some n2 =>
          cases hfs : findSection c2 n2 with
          | none =>
            intro hmem
            simp [tooltip_links, hfind, hn2, hfs] at hmem
            exact absurd hmem ((searchLoop_events cs (some h2)).1 e)
          | some rr =>
            by_cases hne : (rr.1 != h2.entity) = true
            · intro hmem
              simp [tooltip_links, hfind, hn2, hfs, hne] at hmem
              exact ⟨h2, rfl, hmem.symm⟩
            · intro hmem
              simp [tooltip_links, hfind, hn2, hfs, hne] at hmem
  · cases was with
    | none =>
      rw [show tooltip_links cs none = searchLoop cs none from rfl]
      exact (searchLoop_events cs none).2
    | some h2 =>
      cases hfind : cs.find? (fun x => x.entity == h2.relativeCursorEntity) with
      | none => simp [tooltip_links, hfind]
      | some c2 =>
        cases hn2 : c2.norm with
        | none => simp [tooltip_links, hfind, hn2]
        | some n2 =>
          cases hfs : findSection c2 n2 with
          | none =>
            simpa [tooltip_links, hfind, hn2, hfs] using
              (searchLoop_events cs (some h2)).2
          | some rr =>
            by_cases hne : (rr.1 != h2.entity) = true
            · simp [tooltip_links, hfind, hn2, hfs, hne]
            · simp [tooltip_links, hfind, hn2, hfs, hne]

/-- Witness for C9's amended claim: with span 20 of container 2
tracked and the pointer still on it, the tick is a no-op; with span 99
of container 2 tracked and the pointer on its span 20, an exit for 99
is raised and the state cleared; with span 30 of container 3 tracked
and no normalized position, an exit for 30 is raised and the state
cleared. -/
theorem tooltip_C9_witness :
    tooltip_links [c2Ex] (some ⟨20, 2⟩) = ([], some ⟨20, 2⟩) ∧
    tooltip_links [c2Ex] (some ⟨99, 2⟩) = ([TextHoverEvent.out 99], none) ∧
    tooltip_links [c3Ex] (some ⟨30, 3⟩) = ([TextHoverEvent.out 30], none) :=
  ⟨(tooltip_C9_hit_test [c2Ex] ⟨20, 2⟩ c2Ex (0, 0) ⟨40, 40, 60, 60⟩ 0 none).1
     (by with_unfolding_all rfl) (by with_unfolding_all rfl)
     (by with_unfolding_all rfl),
   (tooltip_C9_hit_test [c2Ex] ⟨99, 2⟩ c2Ex (0, 0) ⟨40, 40, 60, 60⟩ 20
       none).2.1
     (by with_unfolding_all rfl) (by with_unfolding_all rfl)
     (by with_unfolding_all rfl) (by decide),
   (tooltip_C9_hit_test [c3Ex] ⟨30, 3⟩ c3Ex (0, 0) ⟨40, 40, 60, 60⟩ 0
       none).2.2.1
     (by with_unfolding_all rfl) rfl⟩

/-- C10: under the `MiddleMouse` activation method,
`middle_mouse_spawn` sets the press event's propagate flag to `false`
before examining the button, so every pointer press delivered to a
link is consumed — including non-middle presses, which spawn nothing
and leave the world unchanged. -/
theorem tooltip_C10_press_consumed (cfg : TooltipConfiguration)
    (links : LinkEnv) (tmap : TMap) (press : PressEvent) (w : TWorld) :
    (middle_mouse_spawn cfg links tmap press w).1 = false ∧
    (press.button ≠ PButton.middle →
      (middle_mouse_spawn cfg links tmap press w).2 = w) := by
  unfold middle_mouse_spawn
  constructor
  · split <;> rfl
  · intro h
    have hb : (press.button != PButton.middle) = true := by
      simpa [bne_iff_ne] using h
    rw [if_pos hb]

/-! Helper lemmas: every system and observer of the lifecycle manager
preserves the distinct-source-links invariant. -/

theorem distinctSources_map (f : Panel → Panel)
    (hf : ∀ p, (f p).sourceLink = p.sourceLink) {ps : List Panel}
    (h : distinctSources ps) : distinctSources (ps.map f) := by
  unfold distinctSources at h ⊢
  refine List.Pairwise.map f (fun a b hab => ?_) h
  rw [hf, hf]
  exact hab

theorem distinctSources_sublist {ps qs : List Panel}
    (hsub : qs.Sublist ps) (h : distinctSources ps) : distinctSources qs :=
  List.Pairwise.sublist hsub h

theorem distinctSources_despawn (ps : List Panel) (pid : Nat)
    (h : distinctSources ps) : distinctSources (despawnPanel ps pid) := by
  unfold despawnPanel
  refine distinctSources_map _ (fun p => ?_) ?_
  · dsimp only
    split <;> rfl
  · exact distinctSources_sublist (List.filter_sublist _) h

theorem distinctSources_foldl_despawn (ids : List Nat) (acc : List Panel)
    (h : distinctSources acc) :
    distinctSources (ids.foldl despawnPanel acc) := by
  induction ids generalizing acc with
  | nil => exact h
  | cons i rest ih => exact ih _ (distinctSources_despawn acc i h)

theorem distinctSources_tick (d : Nat) (lts : List LinkTimer)
    (ps : List Panel) (h : distinctSources ps) :
    distinctSources (tick_timers d lts ps).tooltips := by
  simp only [tick_timers]
  refine distinctSources_foldl_despawn _ _ ?_
  refine distinctSources_map _ (fun p => ?_) h
  unfold tickPanel
  cases p.waitTimer <;> rfl

theorem distinctSources_hover_despawn (ps : List Panel) (pid : Nat)
    (h : distinctSources ps) : distinctSources (hover_despawn ps pid) := by
  cases hf : ps.find? (fun p => p.id == pid) with
  | none => simpa [hover_despawn, hf] using h
  | some p =>
    by_cases h1 : (hasNested ps pid || p.locked || !p.debounced) = true
    · simpa [hover_despawn, hf, h1] using h
    · by_cases h2 : p.cursorOver = true
      · simpa [hover_despawn, hf, h1, h2] using h
      · simpa [hover_despawn, hf, h1, h2] using distinctSources_despawn ps pid h

theorem hover_debounce_sourceLink (p : Panel) :
    (hover_debounce p).sourceLink = p.sourceLink := by
  unfold hover_debounce
  split
  · rfl
  · cases p.normalized
    · rfl
    · dsimp only
      split <;> rfl

theorem distinctSources_spawn (cfg : TooltipConfiguration)
    (links : LinkEnv) (tmap : TMap) (link : Nat) (w : TWorld)
    (h : distinctSources w.tooltips) :
    distinctSources (spawn_tooltip cfg links tmap link w).tooltips := by
  by_cases hany : w.tooltips.any (fun t => t.sourceLink == link) = true
  · simpa [spawn_tooltip, hany] using h
  · have hfree : ∀ t ∈ w.tooltips, t.sourceLink ≠ link := by
      intro t ht heq
      exact hany (List.any_eq_true.mpr ⟨t, ht, by simp [heq]⟩)
    cases hl : links link with
    | none => simpa [spawn_tooltip, hany, hl] using h
    | some li =>
      obtain ⟨l1, l2⟩ := li
      cases l1 with
      | none =>
        cases l2 with
        | none => simpa [spawn_tooltip, hany, hl] using h
        | some pr =>
          obtain ⟨pe, s⟩ := pr
          cases hk : tmap s with
          | none => simpa [spawn_tooltip, hany, hl, spawnResolved, hk] using h
          | some dd =>
            have happ : distinctSources (w.tooltips ++
                [freshPanel cfg w.nextId link (some pe)
                  ((w.tooltips.length : Int) + cfg.starting_z_index)]) := by
              unfold distinctSources
              rw [List.pairwise_append]
              refine ⟨h, List.pairwise_singleton _ _, ?_⟩
              intro a ha b hb
              rw [List.mem_singleton] at hb
              subst hb
              simpa [freshPanel] using hfree a ha
            simpa [spawn_tooltip, hany, hl, spawnResolved, hk] using happ
      | some s =>
        cases l2 with
        | none =>
          cases hk : tmap s with
          | none =>
            have hnil : distinctSources ([] : List Panel) := List.Pairwise.nil
            simpa [spawn_tooltip, hany, hl, spawnResolved, hk] using hnil
          | some dd =>
            have hone : distinctSources
                [freshPanel cfg w.nextId link none cfg.starting_z_index] :=
              List.pairwise_singleton _ _
            simpa [spawn_tooltip, hany, hl, spawnResolved, hk] using hone
        | some pr => simpa [spawn_tooltip, hany, hl] using h

theorem distinctSources_step (cfg : TooltipConfiguration) (links : LinkEnv)
    (tmap : TMap) (w : TWorld) (s : TStep)
    (h : distinctSources w.tooltips) :
    distinctSources (stepWorld cfg links tmap w s).tooltips := by
  cases s with
  | activate link => exact distinctSources_spawn cfg links tmap link w h
  | tick d => exact distinctSources_tick d [] w.tooltips h
  | pointerUpdate pid over norm =>
    refine distinctSources_map _ (fun p => ?_) h
    dsimp only
    split <;> rfl
  | moveOn pid =>
    refine distinctSources_map _ (fun p => ?_) h
    dsimp only
    split
    · exact hover_debounce_sourceLink p
    · rfl
  | outOf pid => exact distinctSources_hover_despawn w.tooltips pid h
  | pressOn pid b =>
    show distinctSources (toggle_lock w.tooltips pid b)
    unfold toggle_lock
    split
    · refine distinctSources_map _ (fun p => ?_) h
      dsimp only
      split <;> rfl
    · exact h

theorem distinctSources_runSteps (cfg : TooltipConfiguration)
    (links : LinkEnv) (tmap : TMap) (steps : List TStep) (w : TWorld)
    (h : distinctSources w.tooltips) :
    distinctSources (runSteps cfg links tmap w steps).tooltips := by
  induction steps generalizing w with
  | nil => exact h
  | cons s rest ih =>
    unfold runSteps
    rw [List.foldl_cons]
    exact ih _ (distinctSources_step cfg links tmap w s h)

/-- C1: at most one live panel per source link.  Any sequence of
activation signals, timer frames, pointer updates and pointer events,
run from the empty world, keeps the live panels' source links pairwise
distinct; and an activation for a link that already bears a live panel
returns the world unchanged — `spawn_tooltip` bails before queueing any
despawn or spawn. -/
theorem tooltip_C1_one_panel_per_link :
    (∀ (cfg : TooltipConfiguration) (links : LinkEnv) (tmap : TMap)
        (steps : List TStep),
      distinctSources (runSteps cfg links tmap initWorld steps).tooltips) ∧
    (∀ (cfg : TooltipConfiguration) (links : LinkEnv) (tmap : TMap)
        (link : Nat) (w : TWorld),
      w.tooltips.any (fun t => t.sourceLink == link) = true →
      spawn_tooltip cfg links tmap link w = w) := by
  constructor
  · intro cfg links tmap steps
    exact distinctSources_runSteps cfg links tmap steps initWorld
      List.Pairwise.nil
  · intro cfg links tmap link w hany
    unfold spawn_tooltip
    rw [if_pos hany]

/-- Witness for C1: link 1 already bears the live panel of `w1Ex`, so
its activation changes nothing. -/
theorem tooltip_C1_witness :
    spawn_tooltip cfgEx linksEx tmapEx 1 w1Ex = w1Ex :=
  tooltip_C1_one_panel_per_link.2 cfgEx linksEx tmapEx 1 w1Ex (by decide)

/-- Witness for C10 at a left-button press on link 1. -/
theorem tooltip_C10_witness :
    (middle_mouse_spawn cfgMidEx linksEx tmapEx ⟨1, PButton.primary⟩
      initWorld).1 = false ∧
    (middle_mouse_spawn cfgMidEx linksEx tmapEx ⟨1, PButton.primary⟩
      initWorld).2 = initWorld :=
  ⟨(tooltip_C10_press_consumed cfgMidEx linksEx tmapEx ⟨1, PButton.primary⟩
      initWorld).1,
   (tooltip_C10_press_consumed cfgMidEx linksEx tmapEx ⟨1, PButton.primary⟩
      initWorld).2 (by decide)⟩

end NestedTooltips
